import Mathlib

/-!
Verification development for the stock-screener repository.

The repository's frontend (`src/frontend/...` and the unnamed page sources)
is embedded directly; the analytics/ledger backend (IndicatorEngine,
FilterEngine, PositionLedger, BacktestSimulator) is not present in the
source tree, so those components are modelled from the specification and
are marked `Modelled from the spec:` in their doc comments.

Conventions: prices and percentages are rationals (`ℚ`); JavaScript
`parseFloat` results that may be `NaN` are modelled as `Option ℚ` with
`none` for `NaN` (every comparison against `NaN` is `false` in JS, which
the `Option` matches encode explicitly); dates and symbols are strings.
-/

namespace StockScreener

/-! ## Frontend data: rows of the Positions table (src/frontend/src/pages/Positions.jsx) -/

/-- A row of the open-positions table as the Positions page receives it:
the fields destructured by `handleRemove` / read by `handleSell` and
`handleUpdate`. -/
structure PositionRow where
  symbol : String
  stock_name : String
  buy_date : String
  buy_price : ℚ
  quantity : ℕ
  stoploss : ℚ
deriving DecidableEq, Repr

/-! ## api.js: the request each `positionsAPI` / `ordersAPI` member builds
(src/frontend/src/services/api.js) -/

/-- An HTTP request as assembled by the axios wrappers: method, url and the
body fields actually serialized. -/
structure HttpRequest where
  method : String
  url : String
  bodyFields : List (String × String)
deriving DecidableEq, Repr

/-- Embedding of `positionsAPI.delete` from api.js line 34: the arrow
function maps `symbol` to `api.delete` of the url `/positions/` followed by
the symbol.  The function accepts a single `symbol` parameter; any
further argument a caller supplies is discarded, and the request carries no
body. -/
def positionsDelete (symbol : String) : HttpRequest :=
  { method := "DELETE", url := "/positions/" ++ symbol, bodyFields := [] }

/-- Embedding of `handleRemove` (Positions.jsx lines 119-129): it destructures
`{ symbol, buy_date, buy_price, quantity }` from the row and calls
`positionsAPI.delete(symbol, { buy_date, buy_price, quantity })`; since
`positionsAPI.delete` takes one parameter, the identity object is dropped
and the resulting request depends on the symbol alone. -/
def handleRemoveRequest (pos : PositionRow) : HttpRequest :=
  positionsDelete pos.symbol

/-- Body of the order posted by `ordersAPI.sell` as `handleSell`
(Positions.jsx lines 97-117) builds it: symbol, quantity sold (absent when
the form field is blank), order type, limit price only for LIMIT orders,
and the addressed lot's `buy_date` and `buy_price`.  The lot's own
`quantity` is not part of the body. -/
structure SellOrderBody where
  symbol : String
  quantity : Option ℕ
  order_type : String
  price : Option ℚ
  buy_date : String
  buy_price : ℚ
deriving DecidableEq, Repr

/-- The sell-order body `handleSell` sends for row `pos` with form fields
`formQty` (parsed quantity, `none` when the input was blank), `orderType`
and `formPrice`. -/
def handleSellRequest (pos : PositionRow) (formQty : Option ℕ)
    (orderType : String) (formPrice : ℚ) : SellOrderBody :=
  { symbol := pos.symbol
    quantity := formQty
    order_type := orderType
    price := if orderType = "LIMIT" then some formPrice else none
    buy_date := pos.buy_date
    buy_price := pos.buy_price }

/-! ## C3: the `positionsAPI.update` call in `handleUpdate` -/

/-- The member names defined on the `positionsAPI` object in api.js
(lines 31-35): `getAll`, `add` and `delete` only. -/
def positionsAPImembers : List String := ["getAll", "add", "delete"]

/-- Result of running `handleUpdate` (Positions.jsx lines 74-95): either an
edit request reaches the network layer, or the `catch` branch fires and the
page shows an error toast. -/
inductive UpdateOutcome
  | requestSent (symbol : String)
  | toastError (msg : String)
  | noOp
deriving DecidableEq, Repr

/-- Embedding of `handleUpdate` from Positions.jsx: it returns early when no row is being
edited; otherwise it invokes `positionsAPI.update(...)`.  `update` is not a
member of `positionsAPI` (api.js lines 31-35), so in JavaScript the call
throws `TypeError` inside the `try`, no request is issued, and the `catch`
branch shows the fallback toast `'Failed to update position'`. -/
def handleUpdate (editPos : Option PositionRow) : UpdateOutcome :=
  match editPos with
  | none => .noOp
  | some p =>
    if "update" ∈ positionsAPImembers then .requestSent p.symbol
    else .toastError "Failed to update position"

/-! ## C9: `fetchFiltered` parameter assembly
(src/frontend/src/components/SummaryCard.jsx lines 116-154) -/

/-- The screener filter state exactly as `useState` holds it: checkbox
booleans plus free-form string inputs (a blank input is the empty
string). -/
structure Filters where
  cp_gt_ema10 : Bool
  ema10_gt_ema20 : Bool
  near_ath_pct : String
  group : String
  min_cp : String
  max_cp : String
  cp_gt_ath_pct_enabled : Bool
  cp_gt_ath_pct : String
  ema_comparison_enabled : Bool
  ema_comparison : String
  prev_change_lt_enabled : Bool
  prev_change_lt : String
  prev_change_gt_enabled : Bool
  prev_change_gt : String
  today_change_gt_enabled : Bool
  today_change_gt : String
  today_change_lt_enabled : Bool
  today_change_lt : String
deriving DecidableEq, Repr

/-- The `params` object `fetchFiltered` sends: a field is `none` when the
corresponding `if` in the source did not assign it.  Numeric parameters
carry the raw input string; the source applies `parseFloat` to the value,
which does not affect whether the key is present. -/
structure ScreenerParams where
  cp_gt_ema10 : Option Bool
  ema10_gt_ema20 : Option Bool
  near_ath_pct : Option String
  group : Option String
  min_cp : Option String
  max_cp : Option String
  cp_gt_ath_pct : Option String
  ema_comparison : Option String
  prev_change_lt : Option String
  prev_change_gt : Option String
  today_change_gt : Option String
  today_change_lt : Option String
deriving DecidableEq, Repr

/-- The guard chain of `fetchFiltered` (SummaryCard.jsx lines 119-144).
JavaScript truthiness of a string is exactly non-emptiness, so
`if (filters.x)` on a string field is `x ≠ ""` and
`if (filters.x_enabled && filters.x)` is the conjunction; the four
change-percent clauses test `filters.x !== ''` explicitly. -/
def buildParams (f : Filters) : ScreenerParams :=
  { cp_gt_ema10 := if f.cp_gt_ema10 then some true else none
    ema10_gt_ema20 := if f.ema10_gt_ema20 then some true else none
    near_ath_pct := if f.near_ath_pct ≠ "" then some f.near_ath_pct else none
    group := if f.group ≠ "" then some f.group else none
    min_cp := if f.min_cp ≠ "" then some f.min_cp else none
    max_cp := if f.max_cp ≠ "" then some f.max_cp else none
    cp_gt_ath_pct :=
      if f.cp_gt_ath_pct_enabled ∧ f.cp_gt_ath_pct ≠ "" then some f.cp_gt_ath_pct else none
    ema_comparison :=
      if f.ema_comparison_enabled ∧ f.ema_comparison ≠ "" then some f.ema_comparison else none
    prev_change_lt :=
      if f.prev_change_lt_enabled ∧ f.prev_change_lt ≠ "" then some f.prev_change_lt else none
    prev_change_gt :=
      if f.prev_change_gt_enabled ∧ f.prev_change_gt ≠ "" then some f.prev_change_gt else none
    today_change_gt :=
      if f.today_change_gt_enabled ∧ f.today_change_gt ≠ "" then some f.today_change_gt else none
    today_change_lt :=
      if f.today_change_lt_enabled ∧ f.today_change_lt ≠ "" then some f.today_change_lt else none }

/-! ## C10: the Near ATH (5%) summary predicate
(src/frontend/src/pages/MasterList.jsx lines 177-185) -/

/-- The predicate of the `Near ATH (5%)` summary card:
`ath > 0 && ((ath - cp) / ath) * 100 <= 5` after
`cp = parseFloat(s.cp)` and `ath = parseFloat(s.ath)`.  A `NaN` parse is
`none`; `NaN > 0` and any comparison involving `NaN` are `false`, which the
`none` branches encode, and `&&` short-circuits so the division only ever
runs under `ath > 0`. -/
def nearAthPred (cp ath : Option ℚ) : Bool :=
  match ath with
  | none => false
  | some a =>
    if 0 < a then
      match cp with
      | none => false
      | some c => ((a - c) / a) * 100 ≤ 5
    else false

/-- The Near ATH (5%) card value: the number of master-list rows whose
parsed `cp`/`ath` satisfy `nearAthPred`. -/
def nearAthCount (rows : List (Option ℚ × Option ℚ)) : ℕ :=
  (rows.filter fun r => nearAthPred r.1 r.2).length

/-! ## IndicatorEngine (spec §4.1) — modelled from the spec; the backend
implementation is not part of the checked-in source tree -/

/-- Modelled from the spec: maximum close over a window (spec §4.1, the
`max(close over window)` term of the ATH formula); `none` on an empty
window.  The missing backend is the IndicatorEngine. -/
def maxClose : List ℚ → Option ℚ
  | [] => none
  | c :: cs => some (cs.foldl max c)

/-- Modelled from the spec: `ATH = max(priorATH, max(close over window))`
with a missing `priorATH` treated as negative infinity, i.e. the first
computation returns the window maximum (spec §4.1).  The missing backend is
the IndicatorEngine. -/
def athOf (closes : List ℚ) (priorATH : Option ℚ) : Option ℚ :=
  match maxClose closes, priorATH with
  | none, p => p
  | some m, none => some m
  | some m, some p => some (max p m)

/-- Modelled from the spec: one EMA(n) recurrence step,
`ema(t) = close(t) * k + ema(t-1) * (1-k)` with `k = 2/(n+1)`
(spec §4.1).  The missing backend is the IndicatorEngine. -/
def emaStep (n : ℕ) (prev close : ℚ) : ℚ :=
  close * (2 / (n + 1)) + prev * (1 - 2 / (n + 1))

/-- Modelled from the spec: EMA(n) of a close series — undefined when fewer
than `n` candles exist, otherwise the recurrence seeded with the simple
average of the first `n` closes and folded over the remaining closes
(spec §4.1).  The missing backend is the IndicatorEngine. -/
def emaOf (n : ℕ) (closes : List ℚ) : Option ℚ :=
  if closes.length < n then none
  else some ((closes.drop n).foldl (emaStep n) ((closes.take n).sum / n))

/-- Modelled from the spec: the successive EMA(n) values, i.e. the seed
followed by each recurrence step's output, so the spec §8 worked example
can be checked value by value.  The missing backend is the
IndicatorEngine. -/
def emaSeq (n : ℕ) (closes : List ℚ) : Option (List ℚ) :=
  if closes.length < n then none
  else some ((closes.drop n).scanl (emaStep n) ((closes.take n).sum / n))

/-! ## PositionLedger (spec §4.3) — modelled from the spec; the backend
implementation is not part of the checked-in source tree -/

/-- Lifecycle states of a lot (spec §4.3). -/
inductive LotState
  | stateOpen
  | partlyClosed
  | stateClosed
deriving DecidableEq, Repr

/-- A lot of the position ledger (spec §3 Position): original quantity plus
the remaining quantity that sells decrement. -/
structure Lot where
  symbol : String
  buy_price : ℚ
  buy_date : String
  quantity : ℕ
  remaining : ℕ
  stoploss : ℚ
  state : LotState
deriving DecidableEq, Repr

/-- A lot identity: symbol together with the distinguishing
buy_date/buy_price/quantity tuple (spec §3 Position). -/
structure LotId where
  symbol : String
  buy_date : String
  buy_price : ℚ
  quantity : ℕ
deriving DecidableEq, Repr

/-- Whether a lot carries the given identity. -/
def Lot.matchesId (l : Lot) (i : LotId) : Bool :=
  l.symbol = i.symbol ∧ l.buy_date = i.buy_date ∧
    l.buy_price = i.buy_price ∧ l.quantity = i.quantity

/-- An immutable trade record, created exactly once per sell event
(spec §3 Trade). -/
structure Trade where
  symbol : String
  buy_price : ℚ
  sell_price : ℚ
  qty : ℕ
  buy_date : String
  sell_date : String
  pnl : ℚ
  pnl_pct : ℚ
deriving DecidableEq, Repr

/-- Failure kind of ledger operations (spec §4.3 / §7): oversell, unknown
lot and non-positive quantity/price are all `invalidOrder`. -/
inductive LedgerError
  | invalidOrder
deriving DecidableEq, Repr

/-- The ledger state: the open-lot set and the closed-trade log. -/
structure Ledger where
  openLots : List Lot
  trades : List Trade
deriving DecidableEq, Repr

/-- Lookup of an open lot by its identity. -/
def findLot (ls : List Lot) (i : LotId) : Option Lot :=
  ls.find? (·.matchesId i)

/-- Modelled from the spec: `buy` always creates a new lot in state OPEN
and never merges with existing lots of the same symbol (spec §4.3); fails
with InvalidOrder on non-positive quantity/price.  The missing backend is
the PositionLedger. -/
def buy (led : Ledger) (symbol : String) (price : ℚ) (qty : ℕ)
    (date : String) (stoploss : ℚ) : Except LedgerError (Lot × Ledger) :=
  if qty = 0 ∨ price ≤ 0 then .error .invalidOrder
  else
    let lot : Lot :=
      { symbol := symbol, buy_price := price, buy_date := date,
        quantity := qty, remaining := qty, stoploss := stoploss,
        state := .stateOpen }
    .ok (lot, { openLots := led.openLots ++ [lot], trades := led.trades })

/-- Modelled from the spec: `sell(lotIdentity, quantitySold, price, date)`
requires the lot to exist, positive quantity/price and
`quantitySold ≤ lot.remainingQuantity`, else fails with InvalidOrder;
on success it decrements the remaining quantity, transitions the lot to
CLOSED and removes it from the open set when the remainder is zero
(otherwise PARTIALLY_CLOSED), and emits exactly one Trade with
`pnl = (sellPrice − buyPrice) * quantitySold` and
`pnl_pct = (sellPrice − buyPrice) / buyPrice * 100` (spec §4.3).  The
operation is all-or-nothing (spec §4.3 failure semantics).  The missing
backend is the PositionLedger. -/
def sell (led : Ledger) (i : LotId) (qty : ℕ) (price : ℚ) (date : String) :
    Except LedgerError (Trade × Ledger) :=
  match findLot led.openLots i with
  | none => .error .invalidOrder
  | some lot =>
    if qty = 0 ∨ price ≤ 0 ∨ lot.remaining < qty then .error .invalidOrder
    else
      let t : Trade :=
        { symbol := lot.symbol, buy_price := lot.buy_price,
          sell_price := price, qty := qty, buy_date := lot.buy_date,
          sell_date := date,
          pnl := (price - lot.buy_price) * qty,
          pnl_pct := (price - lot.buy_price) / lot.buy_price * 100 }
      let lots' :=
        if lot.remaining = qty then
          led.openLots.filter (fun l => !(l.matchesId i))
        else
          led.openLots.map fun l =>
            if l.matchesId i then
              { l with remaining := lot.remaining - qty, state := .partlyClosed }
            else l
      .ok (t, { openLots := lots', trades := led.trades ++ [t] })

/-- The ledger state after a sell command: the updated ledger on success,
the untouched ledger on failure (all-or-nothing, spec §4.3). -/
def runSell (led : Ledger) (i : LotId) (qty : ℕ) (price : ℚ)
    (date : String) : Ledger :=
  match sell led i qty price date with
  | .ok (_, led') => led'
  | .error _ => led

/-! ## FilterEngine (spec §4.2) — modelled from the spec; the backend
implementation is not part of the checked-in source tree -/

/-- An indicator record as the FilterEngine sees it (spec §3 StockRecord);
EMA and change-percent values are `none` while undefined. -/
structure StockRecord where
  symbol : String
  group : String
  cp : ℚ
  ath : ℚ
  ema5 : Option ℚ
  ema10 : Option ℚ
  ema20 : Option ℚ
  prev_change_pct : Option ℚ
  today_change_pct : Option ℚ
deriving DecidableEq, Repr

/-- The selectable EMA pairwise comparison (spec §4.2). -/
inductive EmaCmp
  | e5gt10
  | e10gt20
  | e5gt20
  | e5lt10
  | e10lt20
  | e5lt20
deriving DecidableEq, Repr

/-- Modelled from the spec: the clause kinds of CompoundCriteria, each a
pure predicate over one StockRecord (spec §4.2), as the tagged variants of
the spec §9 design note.  The missing backend is the FilterEngine. -/
inductive ClauseKind
  | cpGtEma10
  | ema10GtEma20
  | groupEq (g : String)
  | cpRange (lo hi : Option ℚ)
  | cpGtAthPct (pct : ℚ)
  | emaCompare (c : EmaCmp)
  | prevChangeRange (lo hi : Option ℚ)
  | todayChangeRange (lo hi : Option ℚ)
deriving DecidableEq, Repr

/-- A criteria clause: an independently enable/disable-able predicate
(spec §4.2). -/
structure Clause where
  enabled : Bool
  kind : ClauseKind
deriving DecidableEq, Repr

/-- Comparison against an optional (undefined) value: false when the value
is undefined. -/
def optLt (a b : Option ℚ) : Bool :=
  match a, b with
  | some x, some y => x < y
  | _, _ => false

/-- Lower/upper bound tests where either bound is optional: a missing bound
imposes no constraint (spec §4.2). -/
def inOptRange (v : Option ℚ) (lo hi : Option ℚ) : Bool :=
  match v with
  | none => false
  | some x =>
    (match lo with | none => true | some l => decide (l ≤ x)) &&
    (match hi with | none => true | some h => decide (x ≤ h))

/-- Modelled from the spec: evaluation of one clause kind over one record
(spec §4.2).  The missing backend is the FilterEngine. -/
def evalKind (k : ClauseKind) (r : StockRecord) : Bool :=
  match k with
  | .cpGtEma10 => optLt r.ema10 (some r.cp)
  | .ema10GtEma20 => optLt r.ema20 r.ema10
  | .groupEq g => r.group = g
  | .cpRange lo hi => inOptRange (some r.cp) lo hi
  | .cpGtAthPct pct => decide (r.cp > pct / 100 * r.ath)
  | .emaCompare c =>
    match c with
    | .e5gt10 => optLt r.ema10 r.ema5
    | .e10gt20 => optLt r.ema20 r.ema10
    | .e5gt20 => optLt r.ema20 r.ema5
    | .e5lt10 => optLt r.ema5 r.ema10
    | .e10lt20 => optLt r.ema10 r.ema20
    | .e5lt20 => optLt r.ema5 r.ema20
  | .prevChangeRange lo hi => inOptRange r.prev_change_pct lo hi
  | .todayChangeRange lo hi => inOptRange r.today_change_pct lo hi

/-- Modelled from the spec: the compound predicate — every enabled clause
must hold, disabled clauses are skipped (spec §4.2).  The missing backend
is the FilterEngine. -/
def evalCriteria (cs : List Clause) (r : StockRecord) : Bool :=
  cs.all fun c => !c.enabled || evalKind c.kind r

/-- Modelled from the spec: `filter(records, criteria)` returning the
matches in input order together with the total count of candidates
considered (spec §4.2).  The missing backend is the FilterEngine. -/
def filterRecords (rs : List StockRecord) (cs : List Clause) :
    List StockRecord × ℕ :=
  (rs.filter (evalCriteria cs), rs.length)

/-! ## BacktestSimulator (spec §4.4) — modelled from the spec; the backend
implementation is not part of the checked-in source tree.  The per-cell
probability rendering comes from the Backtest page
(src/unnamed/part_003 lines 97-149). -/

/-- A daily candle: open and close (spec §2 PriceSeries; only these two
fields enter the backtest algorithm). -/
structure Candle where
  o : ℚ
  c : ℚ
deriving DecidableEq, Repr

/-- The closes of the first `i+1` candles, used for the to-date indicator
values at day `i` (spec §4.4 step 1). -/
def closesUpTo (s : List Candle) (i : ℕ) : List ℚ :=
  (s.take (i + 1)).map (·.c)

/-- Modelled from the spec: a day is in regime when
`close ≥ 0.80 * ATH-to-date` and `EMA5 > EMA10`, both computed over the
series up to that day; days where either EMA is still undefined are out of
regime (spec §4.4 step 2).  The missing backend is the
BacktestSimulator. -/
def inRegime (s : List Candle) (i : ℕ) : Bool :=
  match s.get? i, athOf (closesUpTo s i) none,
      emaOf 5 (closesUpTo s i), emaOf 10 (closesUpTo s i) with
  | some cd, some ath, some e5, some e10 =>
    decide (cd.c ≥ 80 / 100 * ath) && decide (e5 > e10)
  | _, _, _, _ => false

/-- The in-regime day indices of the series, in order. -/
def regimeIdxs (s : List Candle) : List ℕ :=
  (List.range s.length).filter (inRegime s)

/-- Grouping of an ordered index list into maximal runs of consecutive
indices: qualifying periods are consecutive in-regime days (spec §4.4
step 2). -/
def groupRuns : List ℕ → List (List ℕ)
  | [] => []
  | d :: ds =>
    match groupRuns ds with
    | [] => [[d]]
    | [] :: rest => [d] :: rest
    | (e :: es) :: rest =>
      if d + 1 = e then (d :: e :: es) :: rest else [d] :: (e :: es) :: rest

/-- Modelled from the spec: day `i` is a setup ("big up candle") when
`(close − open) / open ≥ upCandlePct / 100` (spec §4.4 step 3).  The
missing backend is the BacktestSimulator. -/
def isSetup (s : List Candle) (upPct : ℚ) (i : ℕ) : Bool :=
  match s.get? i with
  | none => false
  | some cd => decide ((cd.c - cd.o) / cd.o ≥ upPct / 100)

/-- Whether day `i + d` closes below day `i`'s open; false past the end of
the series (spec §4.4 step 4, end-of-series truncation). -/
def isReversal (s : List Candle) (i d : ℕ) : Bool :=
  match s.get? i, s.get? (i + d) with
  | some c0, some cd => cd.c < c0.o
  | _, _ => false

/-- Modelled from the spec: the reversal day-offset of a setup — the first
`d ∈ {1..5}` whose close is below the Day 0 open, `none` (unresolved) when
no such day exists within the series (spec §4.4 step 4).  The missing
backend is the BacktestSimulator. -/
def reversalOffset (s : List Candle) (i : ℕ) : Option ℕ :=
  [1, 2, 3, 4, 5].find? (isReversal s i)

/-- Number of setups of `idxs` whose reversal offset is exactly `d`
(spec §4.4 step 5 histogram). -/
def histCount (s : List Candle) (idxs : List ℕ) (d : ℕ) : ℕ :=
  (idxs.filter fun i => reversalOffset s i = some d).length

/-- Number of setups of `idxs` with no reversal within 5 trading days
(spec §4.4 step 5). -/
def unresolvedCount (s : List Candle) (idxs : List ℕ) : ℕ :=
  (idxs.filter fun i => reversalOffset s i = none).length

/-- One row of the per-period report: period boundaries, the setup count,
the day-offset histogram and the unresolved count (spec §4.4 step 5). -/
structure PeriodReport where
  startIdx : ℕ
  endIdx : ℕ
  setups : ℕ
  d1 : ℕ
  d2 : ℕ
  d3 : ℕ
  d4 : ℕ
  d5 : ℕ
  unresolved : ℕ
deriving DecidableEq, Repr

/-- The all-zero report row (also the report of a period with no
setups). -/
def zeroReport : PeriodReport :=
  { startIdx := 0, endIdx := 0, setups := 0,
    d1 := 0, d2 := 0, d3 := 0, d4 := 0, d5 := 0, unresolved := 0 }

/-- Modelled from the spec: the report of one qualifying period given by
its run of consecutive day indices (spec §4.4 step 5).  The missing backend
is the BacktestSimulator. -/
def mkPeriodReport (s : List Candle) (upPct : ℚ) (run : List ℕ) :
    PeriodReport :=
  let setupIdxs := run.filter (isSetup s upPct)
  { startIdx := run.headD 0
    endIdx := run.getLastD 0
    setups := setupIdxs.length
    d1 := histCount s setupIdxs 1
    d2 := histCount s setupIdxs 2
    d3 := histCount s setupIdxs 3
    d4 := histCount s setupIdxs 4
    d5 := histCount s setupIdxs 5
    unresolved := unresolvedCount s setupIdxs }

/-- Modelled from the spec: the backtest run — qualifying periods are the
maximal runs of consecutive in-regime days, each reported with its setup
histogram (spec §4.4).  The missing backend is the BacktestSimulator. -/
def runBacktest (s : List Candle) (upPct : ℚ) : List PeriodReport :=
  (groupRuns (regimeIdxs s)).map (mkPeriodReport s upPct)

/-- The probability percentage the Backtest page renders for a count:
`setups > 0 ? count / setups * 100 : 0` (src/unnamed/part_003 lines 102,
141 and 148). -/
def probPct (count totalSetups : ℕ) : ℚ :=
  if 0 < totalSetups then ((count : ℚ) / totalSetups) * 100 else 0

/-! ## Concrete data used by witnesses -/

/-- The empty ledger. -/
def led0 : Ledger := { openLots := [], trades := [] }

/-- Ledger after the spec §8 example buy: ACME at price 50, quantity 100. -/
def led1 : Ledger :=
  match buy led0 "ACME" 50 100 "d1" 0 with
  | .ok (_, l) => l
  | .error _ => led0

/-- Identity of the ACME lot created by `led1`. -/
def acmeId : LotId := { symbol := "ACME", buy_date := "d1", buy_price := 50, quantity := 100 }

/-- Ledger after additionally selling 40 at price 60: the ACME lot has 60
remaining (spec §8 example). -/
def led2 : Ledger := runSell led1 acmeId 40 60 "d2"

/-- The ACME lot as it stands in `led2`: 60 remaining, partially closed. -/
def acmeLot60 : Lot :=
  { symbol := "ACME", buy_price := 50, buy_date := "d1", quantity := 100,
    remaining := 60, stoploss := 0, state := .partlyClosed }

/-- A sample matching record for the filter-monotonicity witness. -/
def recW : StockRecord :=
  { symbol := "AAA", group := "IT", cp := 105, ath := 100,
    ema5 := some 104, ema10 := some 103, ema20 := some 101,
    prev_change_pct := some (-1), today_change_pct := some 1 }

/-- A sample non-matching record for the filter-monotonicity witness. -/
def recV : StockRecord :=
  { symbol := "BBB", group := "Energy", cp := 50, ath := 100,
    ema5 := some 49, ema10 := some 52, ema20 := some 55,
    prev_change_pct := some 3, today_change_pct := some (-2) }

/-- Witness criteria: one enabled group clause. -/
def critA : List Clause := [{ enabled := true, kind := .groupEq "IT" }]

/-- Witness criteria: the clause of `critA` plus a further enabled
clause. -/
def critB : List Clause :=
  [{ enabled := true, kind := .groupEq "IT" },
   { enabled := true, kind := .cpGtAthPct 80 }]

/-! ## Helper lemmas -/

/-- Folding the criteria is the same as folding only the enabled clauses:
the compound predicate equals the AND over the enabled clauses. -/
theorem evalCriteria_eq_enabledOnly (cs : List Clause) (r : StockRecord) :
    evalCriteria cs r = (cs.filter (·.enabled)).all fun c => evalKind c.kind r := by
  induction cs with
  | nil => rfl
  | cons c t ih =>
    cases hc : c.enabled <;>
      simp [evalCriteria, List.filter_cons, hc, List.all_cons] at ih ⊢

/-- Erasing the disabled clauses does not change the compound predicate. -/
theorem evalCriteria_filter_enabled (cs : List Clause) (r : StockRecord) :
    evalCriteria (cs.filter (·.enabled)) r = evalCriteria cs r := by
  induction cs with
  | nil => rfl
  | cons c t ih =>
    cases hc : c.enabled <;>
      simp [evalCriteria, List.filter_cons, hc, List.all_cons] at ih ⊢

/-- Every setup is counted in exactly one bucket of offsets 1-5 or as
unresolved, so the six counts sum to the number of setups. -/
theorem hist_partition (s : List Candle) (idxs : List ℕ) :
    histCount s idxs 1 + histCount s idxs 2 + histCount s idxs 3 +
      histCount s idxs 4 + histCount s idxs 5 + unresolvedCount s idxs =
      idxs.length := by
  induction idxs with
  | nil => rfl
  | cons i t ih =>
    rcases h : reversalOffset s i with _ | d
    · simp only [histCount, unresolvedCount] at ih ⊢
      simp [List.filter_cons, h]
      omega
    · have hd : d ∈ [1, 2, 3, 4, 5] := List.mem_of_find?_eq_some h
      simp only [histCount, unresolvedCount] at ih ⊢
      fin_cases hd <;> simp [List.filter_cons, h] <;> omega

/-! ## Claim theorems -/

/-- C1: the claim fails on the code.  The frontend's remove request is a
function of the symbol alone — `positionsAPI.delete` (api.js line 34)
accepts only `symbol`, so the identity object `handleRemove` passes is
discarded and two lots sharing a symbol produce identical remove requests
whatever their buy_date/buy_price/quantity; likewise the sell order body
carries `buy_date` and `buy_price` but not the lot's `quantity`, so lots
differing only in quantity produce identical sell requests.  Mutations are
therefore not addressed by the full identity tuple. -/
theorem C1_mutation_requests_drop_lot_identity :
    (∀ p x : PositionRow,
      handleRemoveRequest p =
        handleRemoveRequest
          { symbol := p.symbol, stock_name := x.stock_name,
            buy_date := x.buy_date, buy_price := x.buy_price,
            quantity := x.quantity, stoploss := x.stoploss }) ∧
    (∀ (p x : PositionRow) (fq : Option ℕ) (ot : String) (fp : ℚ),
      handleSellRequest p fq ot fp =
        handleSellRequest
          { symbol := p.symbol, stock_name := x.stock_name,
            buy_date := p.buy_date, buy_price := p.buy_price,
            quantity := x.quantity, stoploss := x.stoploss } fq ot fp) :=
  ⟨fun _ _ => rfl, fun _ _ _ _ _ => rfl⟩

/-- C2: a sell whose quantity exceeds the addressed lot's remaining
quantity fails with InvalidOrder, the ledger after the failed call is the
ledger before it, and no Trade record is emitted. -/
theorem C2_oversell_rejected_state_unchanged
    (led : Ledger) (i : LotId) (qty : ℕ) (price : ℚ) (date : String)
    (lot : Lot)
    (hfind : findLot led.openLots i = some lot)
    (hover : lot.remaining < qty) :
    sell led i qty price date = .error .invalidOrder ∧
    runSell led i qty price date = led ∧
    (runSell led i qty price date).trades = led.trades := by
  have hsell : sell led i qty price date = .error .invalidOrder := by
    simp [sell, hfind, hover]
  refine ⟨hsell, ?_, ?_⟩ <;> simp [runSell, hsell]

/-- Witness for C2 at the spec §8 example: the ACME lot with 60 remaining
rejects a sell of 61 and the ledger is unchanged. -/
theorem C2_oversell_witness :
    sell led2 acmeId 61 70 "d3" = .error .invalidOrder ∧
    runSell led2 acmeId 61 70 "d3" = led2 ∧
    (runSell led2 acmeId 61 70 "d3").trades = led2.trades :=
  C2_oversell_rejected_state_unchanged led2 acmeId 61 70 "d3" acmeLot60
    (by decide) (by decide)

/-- C3: the claim fails on the code.  `positionsAPI` (api.js lines 31-35)
defines no `update` member, so `handleUpdate`'s call
`positionsAPI.update(...)` throws before any request is issued and every
edit of an open lot ends in the error toast instead of an updated
Position. -/
theorem C3_positions_update_missing :
    "update" ∉ positionsAPImembers ∧
    ∀ p : PositionRow,
      handleUpdate (some p) = .toastError "Failed to update position" := by
  refine ⟨by decide, fun p => ?_⟩
  simp [handleUpdate, positionsAPImembers]

/-- C4: clauses with a false enabled flag contribute nothing — the
compound predicate equals the AND over the enabled clauses only, and
filtering with the disabled clauses erased returns the same result. -/
theorem C4_disabled_clauses_vacuous
    (cs : List Clause) (rs : List StockRecord) (r : StockRecord) :
    evalCriteria cs r = ((cs.filter (·.enabled)).all fun c => evalKind c.kind r) ∧
    filterRecords rs cs = filterRecords rs (cs.filter (·.enabled)) := by
  refine ⟨evalCriteria_eq_enabledOnly cs r, ?_⟩
  unfold filterRecords
  refine Prod.ext ?_ rfl
  exact (List.filter_congr fun a _ => (evalCriteria_filter_enabled cs a).symm)

/-- C5: filtering is monotone — when every enabled clause of `cA` is also
an (enabled) clause of `cB`, every record matched by `cB` is matched by
`cA`. -/
theorem C5_filter_monotone
    (rs : List StockRecord) (cA cB : List Clause)
    (h : ∀ c ∈ cA, c.enabled = true → c ∈ cB) :
    ∀ r ∈ (filterRecords rs cB).1, r ∈ (filterRecords rs cA).1 := by
  intro r hr
  simp only [filterRecords, List.mem_filter] at hr ⊢
  refine ⟨hr.1, ?_⟩
  have hB := hr.2
  simp only [evalCriteria, List.all_eq_true] at hB ⊢
  intro c hc
  cases he : c.enabled
  · simp
  · simpa [he] using hB c (h c hc he)

/-- Witness for C5: a record passing the larger criteria set `critB` is in
the match set of the smaller set `critA`. -/
theorem C5_filter_monotone_witness :
    recW ∈ (filterRecords [recW, recV] critA).1 :=
  C5_filter_monotone [recW, recV] critA critB (by decide) recW
    (by simp [filterRecords, critB, evalCriteria, recW, evalKind]; norm_num)

/-- C6: ATH is the maximum of the prior ATH and the window maximum, a
missing prior ATH yields the window maximum, and recomputing over an
extended series seeded with the earlier ATH never decreases it. -/
theorem C6_ath_monotone :
    (∀ closes : List ℚ, athOf closes none = maxClose closes) ∧
    (∀ (c : ℚ) (cs : List ℚ) (p : ℚ),
      athOf (c :: cs) (some p) = some (max p (cs.foldl max c))) ∧
    (∀ (c : ℚ) (cs cl2 : List ℚ), ∃ a1 a2,
      athOf (c :: cs) none = some a1 ∧
      athOf ((c :: cs) ++ cl2) (athOf (c :: cs) none) = some a2 ∧
      a1 ≤ a2) := by
  refine ⟨fun closes => ?_, fun c cs p => rfl, fun c cs cl2 => ?_⟩
  · cases h : maxClose closes <;> simp [athOf, h]
  · exact ⟨cs.foldl max c, max (cs.foldl max c) ((cs ++ cl2).foldl max c),
      rfl, rfl, le_max_left _ _⟩

/-- C7: EMA(n) is undefined exactly when fewer than n closes exist, and on
the spec §8 example `[10,12,11,13,14]` with n = 3 the recurrence yields
seed 11 followed by the values 12 and 13. -/
theorem C7_ema_recurrence :
    (∀ (n : ℕ) (closes : List ℚ), emaOf n closes = none ↔ closes.length < n) ∧
    emaSeq 3 [10, 12, 11, 13, 14] = some [11, 12, 13] ∧
    emaOf 3 [10, 12, 11, 13, 14] = some 13 := by
  refine ⟨fun n closes => ?_, ?_, ?_⟩
  · unfold emaOf
    split <;> simp_all
  · unfold emaSeq
    norm_num [List.scanl, emaStep]
  · unfold emaOf
    norm_num [List.foldl, emaStep]

/-- C8: in every per-period row of a backtest report the five day-offset
counts plus the unresolved count sum to the period's setup count, and the
rendered probability percentage is count divided by totalSetups (times
100).  Rows are quantified through `getD`; past the end of the report the
default all-zero row satisfies the sum trivially. -/
theorem C8_backtest_totals :
    (∀ (s : List Candle) (u : ℚ) (n : ℕ),
      ((runBacktest s u).getD n zeroReport).d1 +
        ((runBacktest s u).getD n zeroReport).d2 +
        ((runBacktest s u).getD n zeroReport).d3 +
        ((runBacktest s u).getD n zeroReport).d4 +
        ((runBacktest s u).getD n zeroReport).d5 +
        ((runBacktest s u).getD n zeroReport).unresolved =
        ((runBacktest s u).getD n zeroReport).setups) ∧
    (∀ count total : ℕ, probPct count total = ((count : ℚ) / total) * 100) := by
  constructor
  · intro s u n
    rw [runBacktest]
    rcases h : (groupRuns (regimeIdxs s))[n]? with _ | run
    · simp [List.getD, h, zeroReport]
    · simp [List.getD, h, mkPeriodReport]
      exact hist_partition s _
  · intro count total
    unfold probPct
    split
    · rfl
    · rename_i h
      have : total = 0 := by omega
      subst this
      simp

/-- C9: a clause parameter of the screener request is present exactly when
the clause's enabled flag is set and its threshold string is non-empty;
an enabled clause with a blank value is omitted like a disabled one. -/
theorem C9_param_presence (f : Filters) :
    ((buildParams f).cp_gt_ath_pct.isSome =
      (f.cp_gt_ath_pct_enabled && !(f.cp_gt_ath_pct == ""))) ∧
    ((buildParams f).ema_comparison.isSome =
      (f.ema_comparison_enabled && !(f.ema_comparison == ""))) ∧
    ((buildParams f).prev_change_lt.isSome =
      (f.prev_change_lt_enabled && !(f.prev_change_lt == ""))) ∧
    ((buildParams f).prev_change_gt.isSome =
      (f.prev_change_gt_enabled && !(f.prev_change_gt == ""))) ∧
    ((buildParams f).today_change_gt.isSome =
      (f.today_change_gt_enabled && !(f.today_change_gt == ""))) ∧
    ((buildParams f).today_change_lt.isSome =
      (f.today_change_lt_enabled && !(f.today_change_lt == ""))) := by
  unfold buildParams
  refine ⟨?_, ?_, ?_, ?_, ?_, ?_⟩ <;> (dsimp only; split <;> simp_all)

/-- C10: the Near ATH (5%) predicate counts a row only when the parsed ATH
is strictly positive — a missing ATH is never counted, and a positive one
is counted exactly when the parsed current price exists and lies within 5%
of it, so the division is only ever evaluated with a positive ATH. -/
theorem C10_near_ath_guard (cp : Option ℚ) (a : ℚ) :
    nearAthPred cp none = false ∧
    (nearAthPred cp (some a) = true ↔
      0 < a ∧ ∃ x, cp = some x ∧ ((a - x) / a) * 100 ≤ 5) := by
  constructor
  · rfl
  · unfold nearAthPred
    cases cp <;> split <;> simp_all

end StockScreener
